import Mathlib

/-!
Shallow embedding of project-mirage (Phase 0.1).

`demo_phase_01.py` implements the pointer state machine `MirageDemo.move_mouse`
for two fixed 1920x1080 screens (Linux host, Windows peer) with a hard-coded
edge threshold of 10.  `windows-peer/mirage_peer.py` implements the
`InputInjector` (OS input injection, no-op off Windows) and the
`DiscoveryClient` (UDP broadcast discovery with a catch-all error handler).

Coordinates are Python ints, so they are modelled as `Int`.
-/

namespace Mirage

/-- `VirtualScreen` from demo_phase_01.py (name, width, height; the per-screen
mouse fields are never read by `move_mouse`, which uses the demo-level cursor). -/
structure VirtualScreen where
  name : String
  width : Int
  height : Int
deriving DecidableEq, Repr

/-- `self.linux_screen = VirtualScreen("Linux Host", 1920, 1080)`. -/
def linux_screen : VirtualScreen := { name := "Linux Host", width := 1920, height := 1080 }

/-- `self.windows_screen = VirtualScreen("Windows Peer", 1920, 1080)`. -/
def windows_screen : VirtualScreen := { name := "Windows Peer", width := 1920, height := 1080 }

/-- Which of the two screen objects `self.active_screen` refers to. -/
inductive ScreenId where
  | linux
  | windows
deriving DecidableEq, Repr

/-- Dereference the active-screen pointer. -/
def screenOf : ScreenId → VirtualScreen
  | ScreenId.linux => linux_screen
  | ScreenId.windows => windows_screen

/-- The mutable cursor state of `MirageDemo`: `active_screen`, `mouse_x`, `mouse_y`. -/
structure DemoState where
  active : ScreenId
  mouse_x : Int
  mouse_y : Int
deriving DecidableEq, Repr

/-- `edge_threshold = 10` (local constant in `move_mouse`). -/
def edge_threshold : Int := 10

/-- `MirageDemo.move_mouse(delta_x, delta_y)`, demo_phase_01.py lines 50-88.
Returns the Python function's boolean result (True iff a crossing fired)
paired with the committed state.  Faithful details: the position is updated
first (`self.mouse_x += delta_x`), the right-edge check fires only from the
Linux screen, the left-edge check only from the Windows screen, a crossing
branch sets `mouse_x` to `0` resp. `linux_screen.width - 1` and returns
without clamping `mouse_y`, and only the no-crossing branch clamps both
coordinates to `[0, width] x [0, height]` of the still-active screen. -/
def move_mouse (s : DemoState) (delta_x delta_y : Int) : Bool × DemoState :=
  if s.active = ScreenId.linux ∧
      s.mouse_x < linux_screen.width - edge_threshold ∧
      s.mouse_x + delta_x ≥ linux_screen.width - edge_threshold then
    (true, { active := ScreenId.windows, mouse_x := 0, mouse_y := s.mouse_y + delta_y })
  else if s.active = ScreenId.windows ∧
      s.mouse_x > edge_threshold ∧
      s.mouse_x + delta_x ≤ edge_threshold then
    (true, { active := ScreenId.linux, mouse_x := linux_screen.width - 1,
             mouse_y := s.mouse_y + delta_y })
  else
    (false,
      { active := s.active,
        mouse_x := max 0 (min (screenOf s.active).width (s.mouse_x + delta_x)),
        mouse_y := max 0 (min (screenOf s.active).height (s.mouse_y + delta_y)) })

/-- The right-edge crossing condition of `move_mouse`, as a Boolean. -/
def rightCrossFires (s : DemoState) (delta_x : Int) : Bool :=
  decide (s.active = ScreenId.linux ∧
    s.mouse_x < linux_screen.width - edge_threshold ∧
    s.mouse_x + delta_x ≥ linux_screen.width - edge_threshold)

/-- The left-edge crossing condition of `move_mouse`, as a Boolean. -/
def leftCrossFires (s : DemoState) (delta_x : Int) : Bool :=
  decide (s.active = ScreenId.windows ∧
    s.mouse_x > edge_threshold ∧
    s.mouse_x + delta_x ≤ edge_threshold)

/-- Apply a list of deltas in sequence, keeping only the committed states. -/
def applyDeltas (s : DemoState) : List (Int × Int) → DemoState
  | [] => s
  | d :: ds => applyDeltas (move_mouse s d.1 d.2).2 ds

/-- The screen each crossing branch of `move_mouse` switches to: the Linux
screen's only crossing (RIGHT) lands on the Windows screen and vice versa. -/
def crossNeighbor : ScreenId → ScreenId
  | ScreenId.linux => ScreenId.windows
  | ScreenId.windows => ScreenId.linux

/-- The x-coordinate the crossing branches of `move_mouse` commit on entering
a screen: `0` when entering the Windows screen (RIGHT crossing),
`linux_screen.width - 1` when entering the Linux screen (LEFT crossing). -/
def entry_x : ScreenId → Int
  | ScreenId.windows => 0
  | ScreenId.linux => linux_screen.width - 1

/-! ### Windows peer agent (mirage_peer.py) -/

/-- One OS-level injection call issued through win32api. -/
inductive InjCall where
  | setCursorPos (x y : Int)
  | getCursorPos
  | mouseEvent (flag : Nat) (a b c d : Int)
deriving DecidableEq, Repr

/-- Windows constants set in `InputInjector.__init__`. -/
def MOUSEEVENTF_LEFTDOWN : Nat := 0x0002

/-- `self.MOUSEEVENTF_LEFTUP = 0x0004`. -/
def MOUSEEVENTF_LEFTUP : Nat := 0x0004

/-- `self.MOUSEEVENTF_RIGHTDOWN = 0x0008`. -/
def MOUSEEVENTF_RIGHTDOWN : Nat := 0x0008

/-- `self.MOUSEEVENTF_RIGHTUP = 0x0010`. -/
def MOUSEEVENTF_RIGHTUP : Nat := 0x0010

/-- `self.MOUSEEVENTF_WHEEL = 0x0800`. -/
def MOUSEEVENTF_WHEEL : Nat := 0x0800

namespace InputInjector

/-- `InputInjector.move_mouse(x, y)`.  The result is the list of OS injection
calls the Python body issues; `Except` models that a Python method may raise.
Off Windows the body only logs at debug level and returns. -/
def move_mouse (isWindows : Bool) (x y : Int) : Except String (List InjCall) :=
  if isWindows then Except.ok [InjCall.setCursorPos x y]
  else Except.ok []

/-- `InputInjector.move_mouse_relative(dx, dy)`; `pos` is whatever
`win32api.GetCursorPos()` would return on Windows. -/
def move_mouse_relative (isWindows : Bool) (pos : Int × Int) (dx dy : Int) :
    Except String (List InjCall) :=
  if isWindows then
    Except.ok [InjCall.getCursorPos, InjCall.setCursorPos (pos.1 + dx) (pos.2 + dy)]
  else Except.ok []

/-- `InputInjector.click_button(button, pressed)`: off Windows it logs and
returns; on Windows an unrecognized button name hits the bare `return` before
any `mouse_event` call. -/
def click_button (isWindows : Bool) (button : String) (pressed : Bool) :
    Except String (List InjCall) :=
  if ¬ isWindows then Except.ok []
  else if button = "left" then
    Except.ok [InjCall.mouseEvent (if pressed then MOUSEEVENTF_LEFTDOWN else MOUSEEVENTF_LEFTUP) 0 0 0 0]
  else if button = "right" then
    Except.ok [InjCall.mouseEvent (if pressed then MOUSEEVENTF_RIGHTDOWN else MOUSEEVENTF_RIGHTUP) 0 0 0 0]
  else Except.ok []

/-- `InputInjector.scroll_wheel(delta)`. -/
def scroll_wheel (isWindows : Bool) (delta : Int) : Except String (List InjCall) :=
  if isWindows then Except.ok [InjCall.mouseEvent MOUSEEVENTF_WHEEL 0 0 delta 0]
  else Except.ok []

end InputInjector

/-- `DiscoveryClient.start_discovery`: everything after the opening log line is
wrapped in `try ... except Exception`, so the function returns normally in both
cases; `setup` is the combined outcome of the socket/setsockopt/bind calls.
The value is the list of log lines emitted; the plain (non-`Except`) result
type records that no exception escapes. -/
def start_discovery (discovery_port : Nat) (setup : Except String Unit) : List String :=
  "Starting mDNS discovery..." ::
    (match setup with
     | Except.ok _ =>
        ["Listening for broadcasts on port " ++ toString discovery_port,
         "Waiting for Linux host to announce..."]
     | Except.error e => ["Discovery error: " ++ e])

/-- The part of the agent state `MiragePeerAgent.start` mutates: the `running`
flag plus the log produced so far. -/
structure AgentState where
  running : Bool
  log : List String
deriving DecidableEq, Repr

/-- `MiragePeerAgent.start`: logs the banner, sets `self.running = True`,
awaits `start_discovery` (which swallows its own failures), then logs that the
agent is ready.  `setup` is the discovery socket outcome as above. -/
def agent_start (discovery_port : Nat) (setup : Except String Unit) : AgentState :=
  { running := true,
    log := ["Project Mirage - Windows Peer Agent"] ++
      start_discovery discovery_port setup ++
      ["Peer agent ready", "Phase 0.1: Mouse sharing enabled"] }

end Mirage

namespace Mirage

/-- Shared helper: when `move_mouse` fires with the Linux screen active, the
committed state is the Windows screen at `x = 0` with `y` carried unclamped. -/
theorem move_mouse_fire_linux (s : DemoState) (dx dy : Int)
    (ha : s.active = ScreenId.linux) (hf : (move_mouse s dx dy).1 = true) :
    (move_mouse s dx dy).2 =
      { active := ScreenId.windows, mouse_x := 0, mouse_y := s.mouse_y + dy } := by
  unfold move_mouse at *
  split_ifs at * with h1 h2 <;> simp_all

/-- Shared helper: when `move_mouse` fires with the Windows screen active, the
committed state is the Linux screen at `x = linux_screen.width - 1` with `y`
carried unclamped. -/
theorem move_mouse_fire_windows (s : DemoState) (dx dy : Int)
    (ha : s.active = ScreenId.windows) (hf : (move_mouse s dx dy).1 = true) :
    (move_mouse s dx dy).2 =
      { active := ScreenId.linux, mouse_x := linux_screen.width - 1,
        mouse_y := s.mouse_y + dy } := by
  unfold move_mouse at *
  split_ifs at * with h1 h2 <;> simp_all

end Mirage

open Mirage

/-- C1, counterexample: with the cursor at (1915, 540) on the Linux screen,
`move_mouse(10, 0)` does NOT fire an edge crossing (1915 is already inside the
10-pixel hysteresis band, so `old_x < width - threshold` fails); the committed
state stays on the Linux screen with x clamped to 1920, y = 540. -/
theorem C1_counterexample :
    move_mouse ⟨ScreenId.linux, 1915, 540⟩ 10 0 =
      (false, ⟨ScreenId.linux, 1920, 540⟩) ∧
    move_mouse ⟨ScreenId.linux, 1915, 540⟩ 10 0 ≠
      (true, ⟨ScreenId.windows, 0, 540⟩) := by
  decide

/-- C1, amended: starting instead at (1905, 540) on the Linux screen (strictly
inside the hysteresis boundary), `move_mouse(10, 0)` returns an edge crossing
and the committed state is the Windows screen with x = 0, y = 540. -/
theorem C1_amended :
    move_mouse ⟨ScreenId.linux, 1905, 540⟩ 10 0 =
      (true, ⟨ScreenId.windows, 0, 540⟩) := by
  decide

/-- C2: `move_mouse` reports a crossing exactly when the RIGHT predicate fires
(Linux active, `old_x < width - threshold`, `old_x + dx ≥ width - threshold`)
or the LEFT predicate fires (Windows active, `old_x > threshold`,
`old_x + dx ≤ threshold`); no crossing fires in any other case. -/
theorem C2_crossing_predicates (s : DemoState) (dx dy : Int) :
    (move_mouse s dx dy).1 = true ↔
      ((s.active = ScreenId.linux ∧
          s.mouse_x < linux_screen.width - edge_threshold ∧
          s.mouse_x + dx ≥ linux_screen.width - edge_threshold) ∨
       (s.active = ScreenId.windows ∧
          s.mouse_x > edge_threshold ∧
          s.mouse_x + dx ≤ edge_threshold)) := by
  unfold move_mouse
  split_ifs with h1 h2 <;> simp_all


/-- C3, counterexample: from (1905, 1075) on the Linux screen, `move_mouse(10, 10)`
fires the RIGHT crossing and commits y = 1085, which exceeds the neighbor's
height 1080 — the orthogonal coordinate is NOT clamped to the neighbor's
bounds on a crossing. -/
theorem C3_counterexample :
    move_mouse ⟨ScreenId.linux, 1905, 1075⟩ 10 10 =
      (true, ⟨ScreenId.windows, 0, 1085⟩) ∧
    ¬ ((1085 : Int) ≤ windows_screen.height) := by
  decide

/-- C3, amended: whenever a crossing fires, the active screen switches to the
neighbor and a RIGHT crossing sets x = 0 while a LEFT crossing sets
x = neighbor.width - 1; the orthogonal coordinate is carried through unchanged
(y + dy) WITHOUT being clamped to the neighbor's bounds. -/
theorem C3_amended (s : DemoState) (dx dy : Int)
    (hf : (move_mouse s dx dy).1 = true) :
    (s.active = ScreenId.linux →
      (move_mouse s dx dy).2 =
        { active := ScreenId.windows, mouse_x := 0, mouse_y := s.mouse_y + dy }) ∧
    (s.active = ScreenId.windows →
      (move_mouse s dx dy).2 =
        { active := ScreenId.linux, mouse_x := linux_screen.width - 1,
          mouse_y := s.mouse_y + dy }) := by
  constructor
  · intro ha
    exact move_mouse_fire_linux s dx dy ha hf
  · intro ha
    exact move_mouse_fire_windows s dx dy ha hf

/-- C3, witness: the amended statement at the concrete crossing (1900, 300),
delta (20, 50) on the Linux screen. -/
theorem C3_witness :
    (move_mouse ⟨ScreenId.linux, 1900, 300⟩ 20 50).1 = true ∧
    (move_mouse ⟨ScreenId.linux, 1900, 300⟩ 20 50).2 =
      { active := ScreenId.windows, mouse_x := 0, mouse_y := 350 } :=
  ⟨by decide, (C3_amended ⟨ScreenId.linux, 1900, 300⟩ 20 50 (by decide)).1 rfl⟩

/-- C4, counterexample: from (1905, 5) on the Linux screen, `move_mouse(10, -10)`
fires the RIGHT crossing and the COMMITTED state after the call has
y = -5 < 0: the committed position can leave the bounds, not only transiently
inside the crossing step. -/
theorem C4_counterexample :
    move_mouse ⟨ScreenId.linux, 1905, 5⟩ 10 (-10) =
      (true, ⟨ScreenId.windows, 0, -5⟩) ∧
    ¬ ((0 : Int) ≤ -5) := by
  decide

/-- C4, amended: after a `move_mouse` call that fires no crossing both
coordinates are clamped into `[0, width] x [0, height]` of the active screen;
after a crossing call x is in bounds (0 or width - 1) but y is carried
unclamped and may lie outside `[0, height]`. -/
theorem C4_amended (s : DemoState) (dx dy : Int) :
    ((move_mouse s dx dy).1 = false →
      0 ≤ (move_mouse s dx dy).2.mouse_x ∧
      (move_mouse s dx dy).2.mouse_x ≤ (screenOf (move_mouse s dx dy).2.active).width ∧
      0 ≤ (move_mouse s dx dy).2.mouse_y ∧
      (move_mouse s dx dy).2.mouse_y ≤ (screenOf (move_mouse s dx dy).2.active).height) ∧
    ((move_mouse s dx dy).1 = true →
      (move_mouse s dx dy).2.mouse_x = 0 ∨
      (move_mouse s dx dy).2.mouse_x = linux_screen.width - 1) := by
  cases s with
  | mk a mx my =>
    cases a <;>
      · unfold move_mouse
        split_ifs <;>
          simp_all [screenOf, linux_screen, windows_screen, edge_threshold]

/-- C4, witness: the amended statement at the concrete non-crossing move
(100, 100) + (5, 5) on the Linux screen. -/
theorem C4_witness :
    (move_mouse ⟨ScreenId.linux, 100, 100⟩ 5 5).1 = false ∧
    (0 ≤ (move_mouse ⟨ScreenId.linux, 100, 100⟩ 5 5).2.mouse_x ∧
     (move_mouse ⟨ScreenId.linux, 100, 100⟩ 5 5).2.mouse_x ≤
       (screenOf (move_mouse ⟨ScreenId.linux, 100, 100⟩ 5 5).2.active).width ∧
     0 ≤ (move_mouse ⟨ScreenId.linux, 100, 100⟩ 5 5).2.mouse_y ∧
     (move_mouse ⟨ScreenId.linux, 100, 100⟩ 5 5).2.mouse_y ≤
       (screenOf (move_mouse ⟨ScreenId.linux, 100, 100⟩ 5 5).2.active).height) :=
  ⟨by decide, (C4_amended ⟨ScreenId.linux, 100, 100⟩ 5 5).1 (by decide)⟩

/-- C5, counterexample: the candidate position 1900 + 10 = 1910 lies in the
closed band `[threshold, width - threshold] = [10, 1910]` (and 540 lies in
`[10, 1070]`), yet from (1900, 540) on the Linux screen `move_mouse(10, 0)`
DOES fire a crossing and switches the active screen: the claim fails at the
band's right endpoint. -/
theorem C5_counterexample :
    (edge_threshold ≤ (1900 : Int) + 10 ∧
     (1900 : Int) + 10 ≤ linux_screen.width - edge_threshold ∧
     edge_threshold ≤ (540 : Int) + 0 ∧
     (540 : Int) + 0 ≤ linux_screen.height - edge_threshold) ∧
    (move_mouse ⟨ScreenId.linux, 1900, 540⟩ 10 0).1 = true ∧
    (move_mouse ⟨ScreenId.linux, 1900, 540⟩ 10 0).2.active ≠ ScreenId.linux := by
  decide

/-- C5, amended: if the candidate x lies STRICTLY inside
`(threshold, width - threshold)` and the candidate y lies in
`[threshold, height - threshold]`, then `move_mouse` fires no crossing, keeps
the active screen, and commits exactly (x + dx, y + dy). -/
theorem C5_amended (s : DemoState) (dx dy : Int)
    (hx0 : 0 ≤ s.mouse_x) (hx1 : s.mouse_x ≤ (screenOf s.active).width)
    (hy0 : 0 ≤ s.mouse_y) (hy1 : s.mouse_y ≤ (screenOf s.active).height)
    (h1 : edge_threshold < s.mouse_x + dx)
    (h2 : s.mouse_x + dx < (screenOf s.active).width - edge_threshold)
    (h3 : edge_threshold ≤ s.mouse_y + dy)
    (h4 : s.mouse_y + dy ≤ (screenOf s.active).height - edge_threshold) :
    move_mouse s dx dy =
      (false, { active := s.active, mouse_x := s.mouse_x + dx,
                mouse_y := s.mouse_y + dy }) := by
  cases s with
  | mk a mx my =>
    cases a <;>
      · unfold move_mouse
        split_ifs <;>
            simp_all [screenOf, linux_screen, windows_screen, edge_threshold] <;>
          omega

/-- C5, witness: the amended statement at the concrete interior move
(500, 500) + (20, 30) on the Linux screen. -/
theorem C5_witness :
    move_mouse ⟨ScreenId.linux, 500, 500⟩ 20 30 =
      (false, { active := ScreenId.linux, mouse_x := 520, mouse_y := 530 }) :=
  C5_amended ⟨ScreenId.linux, 500, 500⟩ 20 30 (by decide) (by decide) (by decide)
    (by decide) (by decide) (by decide) (by decide) (by decide)

/-- C6: from either origin screen, if a crossing fires it lands on the
neighbor, and if after any further committed moves that keep the cursor on the
neighbor the opposite crossing fires, the cursor returns to the original
screen with its horizontal position exactly at that screen's entry edge
(`linux_screen.width - 1` on the Linux screen, `0` on the Windows screen),
hence within `edge_threshold` pixels of the entry edge rather than
bit-identical to the starting point. -/
theorem C6_round_trip (s : DemoState) (dx dy : Int) (ds : List (Int × Int))
    (dx2 dy2 : Int)
    (hfire : (move_mouse s dx dy).1 = true)
    (hmid : (applyDeltas (move_mouse s dx dy).2 ds).active = crossNeighbor s.active)
    (hfire2 : (move_mouse (applyDeltas (move_mouse s dx dy).2 ds) dx2 dy2).1 = true) :
    (move_mouse s dx dy).2.active = crossNeighbor s.active ∧
    (move_mouse (applyDeltas (move_mouse s dx dy).2 ds) dx2 dy2).2.active = s.active ∧
    (move_mouse (applyDeltas (move_mouse s dx dy).2 ds) dx2 dy2).2.mouse_x =
      entry_x s.active ∧
    |(move_mouse (applyDeltas (move_mouse s dx dy).2 ds) dx2 dy2).2.mouse_x -
        entry_x s.active| ≤ edge_threshold := by
  cases hs : s.active with
  | linux =>
    have h1 := move_mouse_fire_linux s dx dy hs hfire
    rw [hs] at hmid
    have hmid2 : (applyDeltas (move_mouse s dx dy).2 ds).active = ScreenId.windows := hmid
    have h2 := move_mouse_fire_windows (applyDeltas (move_mouse s dx dy).2 ds) dx2 dy2
      hmid2 hfire2
    exact ⟨by rw [h1]; rfl, by rw [h2], by rw [h2]; rfl, by rw [h2]; dsimp only; decide⟩
  | windows =>
    have h1 := move_mouse_fire_windows s dx dy hs hfire
    rw [hs] at hmid
    have hmid2 : (applyDeltas (move_mouse s dx dy).2 ds).active = ScreenId.linux := hmid
    have h2 := move_mouse_fire_linux (applyDeltas (move_mouse s dx dy).2 ds) dx2 dy2
      hmid2 hfire2
    exact ⟨by rw [h1]; rfl, by rw [h2], by rw [h2]; rfl, by rw [h2]; dsimp only; decide⟩

/-- C6, witness (the spec's LEFT-then-RIGHT direction): Windows (20, 540)
crosses LEFT with delta (-15, 0) to Linux at x = 1919, drifts to (1419, 540)
on Linux, then delta (495, 0) fires the RIGHT crossing back to the Windows
screen at x = 0, the entry edge of the origin screen. -/
theorem C6_witness :
    (move_mouse ⟨ScreenId.windows, 20, 540⟩ (-15) 0).2.active =
      crossNeighbor ScreenId.windows ∧
    (move_mouse (applyDeltas (move_mouse ⟨ScreenId.windows, 20, 540⟩ (-15) 0).2
        [((-500 : Int), (0 : Int))]) 495 0).2.active = ScreenId.windows ∧
    (move_mouse (applyDeltas (move_mouse ⟨ScreenId.windows, 20, 540⟩ (-15) 0).2
        [((-500 : Int), (0 : Int))]) 495 0).2.mouse_x = entry_x ScreenId.windows ∧
    |(move_mouse (applyDeltas (move_mouse ⟨ScreenId.windows, 20, 540⟩ (-15) 0).2
        [((-500 : Int), (0 : Int))]) 495 0).2.mouse_x -
        entry_x ScreenId.windows| ≤ edge_threshold :=
  C6_round_trip ⟨ScreenId.windows, 20, 540⟩ (-15) 0 [((-500 : Int), (0 : Int))] 495 0
    (by decide) (by decide) (by decide)

/-- C7: the RIGHT and LEFT crossing conditions of `move_mouse` are mutually
exclusive, the call reports a crossing exactly when one of them holds (so at
most one crossing fires per call), and the active screen changes exactly when
a crossing is reported (so it switches at most once per call). -/
theorem C7_single_crossing (s : DemoState) (dx dy : Int) :
    (rightCrossFires s dx && leftCrossFires s dx) = false ∧
    (move_mouse s dx dy).1 = (rightCrossFires s dx || leftCrossFires s dx) ∧
    ((move_mouse s dx dy).1 = false ↔ (move_mouse s dx dy).2.active = s.active) := by
  cases s with
  | mk a mx my =>
    cases a <;>
      · unfold move_mouse rightCrossFires leftCrossFires
        split_ifs <;> simp_all

/-- C8: off Windows (`IS_WINDOWS` false), every `InputInjector` operation
issues no OS injection call and returns successfully (`Except.ok`), for all
arguments. -/
theorem C8_injector_noop_off_windows (x y px py dx dy delta : Int)
    (button : String) (pressed : Bool) :
    InputInjector.move_mouse false x y = Except.ok [] ∧
    InputInjector.move_mouse_relative false (px, py) dx dy = Except.ok [] ∧
    InputInjector.click_button false button pressed = Except.ok [] ∧
    InputInjector.scroll_wheel false delta = Except.ok [] := by
  refine ⟨rfl, rfl, ?_, rfl⟩
  unfold InputInjector.click_button
  simp

/-- C9: when the discovery socket setup fails with any error, `start_discovery`
still returns normally (the error is caught and logged, not propagated), and
`MiragePeerAgent.start` completes with `running = true` and reaches its
"Peer agent ready" log line. -/
theorem C9_discovery_failure_nonfatal (port : Nat) (e : String) :
    start_discovery port (Except.error e) =
      ["Starting mDNS discovery...", "Discovery error: " ++ e] ∧
    (agent_start port (Except.error e)).running = true ∧
    ("Discovery error: " ++ e) ∈ (agent_start port (Except.error e)).log ∧
    "Peer agent ready" ∈ (agent_start port (Except.error e)).log := by
  refine ⟨rfl, rfl, ?_, ?_⟩ <;> simp [agent_start, start_discovery]

/-- C10: for any button string other than "left" and "right", `click_button`
issues no injection call and returns successfully, on every platform. -/
theorem C10_unknown_button_noop (isWindows : Bool) (button : String) (pressed : Bool)
    (h1 : button ≠ "left") (h2 : button ≠ "right") :
    InputInjector.click_button isWindows button pressed = Except.ok [] := by
  cases isWindows <;> simp [InputInjector.click_button, h1, h2]

/-- C10, witness: the "middle" button on Windows with pressed = true. -/
theorem C10_witness :
    InputInjector.click_button true "middle" true = Except.ok [] :=
  C10_unknown_button_noop true "middle" true (by decide) (by decide)
